import Mathlib

/-!
Verification of the ETL_Project_Banks pipeline.

This file is a shallow embedding of `src/ETL_Banks/ETL_Project_Banks.py`:
a three-stage ETL script that extracts a table of banks from an HTML
document, converts the market-capitalization column into three further
currencies using an exchange-rate table, and writes the result to a CSV
file and to a sqlite table, finally running three ad-hoc queries.

Modelling conventions:
* pandas DataFrames are `DataFrame` values: a list of column names plus
  rows of `CellValue`s aligned by position;
* Python floats are modelled as rationals (`ℚ`), `float(s)` string
  coercion as `pyFloat?`, and `np.round(x, 2)` as `roundQ2` (round half
  to even at two decimals);
* Python exceptions are the `Err` inductive, and fallible operations
  return `Except Err _` (or `Option`);
* the module-level script is `runPipeline`, parameterised over an
  environment `Env` that supplies the results of the external effects
  (HTTP fetch, exchange-rate file read, write success, SQL engine) and
  threads an explicit `RunState` (audit log, CSV sink, database tables,
  connection flag, printed output).
-/

namespace ETLBanks

attribute [local semireducible] Rat.mul Rat.inv Rat.add Rat.sub Rat.ofScientific

deriving instance DecidableEq for Except

/-- A pandas cell value: a string, a number (modelled as a rational), or
Python `None`. -/
inductive CellValue where
  | str (s : String)
  | num (q : ℚ)
  | null
deriving DecidableEq

/-- A pandas DataFrame: named columns and rows of cells aligned by
position. -/
structure DataFrame where
  cols : List String
  rows : List (List CellValue)
deriving DecidableEq

/-- Errors of the script, mirroring the Python exceptions it can raise:
network failure in `requests.get`, `IndexError` on `tables[0]`,
`IndexError` on `link1[1]`/`col[2]`, `KeyError` on a missing DataFrame
column, `ValueError` from `astype(float)`, failure to read
`exchange_rate.csv`, `KeyError` on a missing currency code, write
failures in `to_csv`/`to_sql`, `sqlite3.connect` failure, a `read_sql`
failure, and a dangling reference (never raised by the script). -/
inductive Err where
  | fetch
  | parseIndex
  | rowIndex
  | keyColumn (c : String)
  | valueConversion
  | rateFile
  | missingRate (c : String)
  | persistence
  | connect
  | query
  | nullRef
deriving DecidableEq

/-- Python `str.strip()` on the underlying character list. -/
def stripChars (l : List Char) : List Char :=
  ((l.dropWhile Char.isWhitespace).reverse.dropWhile Char.isWhitespace).reverse

/-- Python `str.strip()`. -/
def pyStrip (s : String) : String :=
  ⟨stripChars s.data⟩

/-- Numeric value of a list of decimal digit characters. -/
def digitsVal (l : List Char) : ℕ :=
  l.foldl (fun a c => a * 10 + (c.toNat - 48)) 0

/-- Split a character list into its leading run of digits and the rest. -/
def splitDigits (l : List Char) : List Char × List Char :=
  (l.takeWhile Char.isDigit, l.dropWhile Char.isDigit)

/-- Parse a non-empty all-digit character list as a natural number. -/
def parseUNat? (l : List Char) : Option ℕ :=
  if l ≠ [] ∧ l.all Char.isDigit then some (digitsVal l) else none

/-- Parse an optionally signed run of digits as an integer. -/
def parseSignedInt? (l : List Char) : Option ℤ :=
  match l with
  | '+' :: r => (parseUNat? r).map Int.ofNat
  | '-' :: r => (parseUNat? r).map (fun n => -(n : ℤ))
  | r => (parseUNat? r).map Int.ofNat

/-- Parse the optional exponent tail of a float literal (empty, or
`e`/`E` followed by a signed integer). -/
def parseExpPart? : List Char → Option ℤ
  | [] => some 0
  | 'e' :: rest => parseSignedInt? rest
  | 'E' :: rest => parseSignedInt? rest
  | _ => none

/-- Parse the mantissa of a float literal: digits with an optional
decimal point, at least one digit overall; returns its value and the
unconsumed tail. -/
def parseMantissa? (l : List Char) : Option (ℚ × List Char) :=
  let p := splitDigits l
  match p.2 with
  | '.' :: rest2 =>
      let pf := splitDigits rest2
      if p.1 = [] ∧ pf.1 = [] then none
      else some ((digitsVal p.1 : ℚ) + (digitsVal pf.1 : ℚ) / ((10 : ℚ) ^ pf.1.length), pf.2)
  | _ => if p.1 = [] then none else some ((digitsVal p.1 : ℚ), p.2)

/-- Python `float(s)` on a string: strip whitespace, optional sign,
digits with optional decimal point, optional exponent.  Returns `none`
where Python raises `ValueError` (e.g. on a leading dollar sign). -/
def pyFloat? (s : String) : Option ℚ :=
  let l := stripChars s.data
  let sl : ℚ × List Char :=
    match l with
    | '+' :: r => (1, r)
    | '-' :: r => (-1, r)
    | r => (1, r)
  (parseMantissa? sl.2).bind fun m =>
    (parseExpPart? m.2).map fun e => sl.1 * m.1 * (10 : ℚ) ^ e

/-- Round a rational to the nearest integer, ties to even — the rounding
of `np.round` at whole numbers. -/
def rhalfEven (q : ℚ) : ℤ :=
  let f : ℤ := q.floor
  let r : ℚ := q - (f : ℚ)
  if r < 1 / 2 then f
  else if 1 / 2 < r then f + 1
  else if f % 2 = 0 then f else f + 1

/-- `np.round(q, 2)`: round half to even at two decimal places. -/
def roundQ2 (q : ℚ) : ℚ :=
  (rhalfEven (q * 100) : ℚ) / 100

/-- Effectful map over a list in the `Option` monad, stopping at the
first failure (written out explicitly to keep proofs elementary). -/
def mapO (f : α → Option β) : List α → Option (List β)
  | [] => some []
  | x :: xs =>
    match f x with
    | none => none
    | some y =>
      match mapO f xs with
      | none => none
      | some ys => some (y :: ys)

/-! ## Extractor (`extract`) -/

/-- A `<td>` cell: the `title` attribute of each `<a>` inside it (in
document order, `none` when the attribute is absent) and its text. -/
structure Cell where
  links : List (Option String)
  text : String
deriving DecidableEq, Inhabited

/-- A `<tr>` row: its `<td>` cells. -/
structure HtmlRow where
  cells : List Cell
deriving DecidableEq

/-- A parsed HTML document: its `<tbody>` elements, each a list of rows. -/
structure HtmlDoc where
  tbodies : List (List HtmlRow)
deriving DecidableEq

/-- `link2.get('title')`: a present title becomes a string cell, an
absent one Python `None`. -/
def titleCell (t : Option String) : CellValue :=
  match t with
  | some s => CellValue.str s
  | none => CellValue.null

/-- The column names the script initialises the DataFrame with
(`table_attribs` in the source). -/
def table_attribs : List String := ["Name", "MC_USD_Billion"]

/-- One iteration of the extraction loop.  For a row with more than one
cell: `link1 = col[1].find_all('a')`, `link2 = link1[1]` (`IndexError`
if fewer than two links), `col2 = col[2]` (`IndexError` if only two
cells), and the record is the second link's title with the stripped text
of the third cell.  A row with one or fewer cells is skipped. -/
def extractRow (row : HtmlRow) : Except Err (Option (List CellValue)) :=
  let col := row.cells
  if col.length > 1 then
    match (col.getD 1 default).links.get? 1 with
    | none => Except.error Err.rowIndex
    | some link2 =>
      match col.get? 2 with
      | none => Except.error Err.rowIndex
      | some col2 =>
        Except.ok (some [titleCell link2, CellValue.str (pyStrip col2.text)])
  else
    Except.ok none

/-- The extraction loop over `rows[1:]`, accumulating one record per
qualifying row in source order. -/
def extractRows : List HtmlRow → Except Err (List (List CellValue))
  | [] => Except.ok []
  | r :: rest =>
    match extractRow r with
    | Except.error e => Except.error e
    | Except.ok none => extractRows rest
    | Except.ok (some cells) =>
      match extractRows rest with
      | Except.error e => Except.error e
      | Except.ok tail => Except.ok (cells :: tail)

/-- `extract(url, table_attribs)` on an already-fetched document:
`tables = data.find_all('tbody')`, `rows = tables[0].find_all('tr')`
(`IndexError` when there is no table body), then the loop over
`rows[1:]`. -/
def extract (doc : HtmlDoc) : Except Err DataFrame :=
  match doc.tbodies.get? 0 with
  | none => Except.error Err.parseIndex
  | some body =>
    match extractRows (body.drop 1) with
    | Except.error e => Except.error e
    | Except.ok rs => Except.ok ⟨table_attribs, rs⟩

/-- A row qualifies as a data row when it has more than one cell — the
loop's `if len(col) > 1` test. -/
def qualifies (r : HtmlRow) : Bool :=
  decide (r.cells.length > 1)

/-- A row of a valid source document: either a non-data row (one or
fewer cells, skipped entirely), or a fully well-formed data row — at
least three cells, a second link with a non-empty title in the second
cell, and third-cell text whose whitespace-stripped form parses as a
positive decimal. -/
def validRow (r : HtmlRow) : Bool :=
  decide (r.cells.length ≤ 1) ||
  (decide (3 ≤ r.cells.length) &&
   (match (r.cells.getD 1 default).links.get? 1 with
    | some (some t) => !(t == "")
    | _ => false) &&
   (match pyFloat? (pyStrip ((r.cells.get? 2).getD default).text) with
    | some q => decide (0 < q)
    | none => false))

/-- The record `extract` builds from a qualifying data row: the second
link's title from the second cell and the stripped text of the third
cell. -/
def rowRecord (r : HtmlRow) : List CellValue :=
  [ titleCell (((r.cells.getD 1 default).links.get? 1).getD none),
    CellValue.str (pyStrip ((r.cells.get? 2).getD default).text) ]

/-! ## Transformer (`transform`) -/

/-- `float(c)` on a cell: a string is parsed, a number is kept, `None`
fails. -/
def coerceFloat (c : CellValue) : Option ℚ :=
  match c with
  | CellValue.str s => pyFloat? s
  | CellValue.num q => some q
  | CellValue.null => none

/-- Coerce the cell at column position `j` of one row to a float,
returning the updated row together with the numeric value. -/
def coerceRow (j : ℕ) (r : List CellValue) : Option (List CellValue × ℚ) :=
  match r.get? j with
  | none => none
  | some c =>
    match coerceFloat c with
    | none => none
    | some q => some (r.set j (CellValue.num q), q)

/-- `df['MC_USD_Billion'] = df['MC_USD_Billion'].astype(float)`:
`KeyError` if the column is absent, `ValueError` if any entry fails to
parse; otherwise the updated DataFrame and the numeric column. -/
def astypeUSD (df : DataFrame) : Except Err (DataFrame × List ℚ) :=
  match df.cols.findIdx? (fun c => c == "MC_USD_Billion") with
  | none => Except.error (Err.keyColumn "MC_USD_Billion")
  | some j =>
    match mapO (coerceRow j) df.rows with
    | none => Except.error Err.valueConversion
    | some l => Except.ok (⟨df.cols, l.map Prod.fst⟩, l.map Prod.snd)

/-- `[np.round(x*exchange_rate[c],2) for x in df['MC_USD_Billion']]`:
the dict lookup happens per element, so a missing code only raises
(`KeyError`, modelled `missingRate`) when the column is non-empty. -/
def deriveCol (usd : List ℚ) (rates : List (String × ℚ)) (c : String) : Except Err (List ℚ) :=
  match mapO (fun x => (List.lookup c rates).map (fun r => roundQ2 (x * r))) usd with
  | none => Except.error (Err.missingRate c)
  | some l => Except.ok l

/-- `df[c] = vals`: pandas column assignment — replace the column when
the name exists, append a new column otherwise. -/
def setColumn (df : DataFrame) (c : String) (vals : List CellValue) : DataFrame :=
  match df.cols.findIdx? (fun x => x == c) with
  | some j => ⟨df.cols, df.rows.zipWith (fun r v => r.set j v) vals⟩
  | none => ⟨df.cols ++ [c], df.rows.zipWith (fun r v => r ++ [v]) vals⟩

/-- `transform(df, csv_path)`: coerce the USD column to float, read the
exchange-rate file into a dict (its result is passed in as `ratesFile`),
then assign the three derived currency columns in order GBP, EUR, INR. -/
def transform (df : DataFrame) (ratesFile : Except Err (List (String × ℚ))) :
    Except Err DataFrame :=
  match astypeUSD df with
  | Except.error e => Except.error e
  | Except.ok du =>
    match ratesFile with
    | Except.error e => Except.error e
    | Except.ok rates =>
      match deriveCol du.2 rates "GBP" with
      | Except.error e => Except.error e
      | Except.ok g =>
        let df2 := setColumn du.1 "MC_GBP_Billion" (g.map CellValue.num)
        match deriveCol du.2 rates "EUR" with
        | Except.error e => Except.error e
        | Except.ok eu =>
          let df3 := setColumn df2 "MC_EUR_Billion" (eu.map CellValue.num)
          match deriveCol du.2 rates "INR" with
          | Except.error e => Except.error e
          | Except.ok inr =>
            Except.ok (setColumn df3 "MC_INR_Billion" (inr.map CellValue.num))

/-! ## Loader and query runner -/

/-- `table_name` in the source. -/
def table_name : String := "Largest_banks"

/-- `load_to_csv(df, output_path)`: overwrite the CSV file at the output
path with the DataFrame (the prior file contents are irrelevant). -/
def load_to_csv (df : DataFrame) (_csvFile : Option DataFrame) : Option DataFrame :=
  some df

/-- `df.to_sql(table_name, conn, if_exists='replace', index=False)`:
drop any existing table of that name and store the new rows. -/
def load_to_db (db : List (String × DataFrame)) (name : String) (df : DataFrame) :
    List (String × DataFrame) :=
  (db.filter fun p => !(p.1 == name)) ++ [(name, df)]

/-- An item printed to stdout: a plain string or a rendered DataFrame. -/
inductive PrintItem where
  | text (s : String)
  | table (df : DataFrame)
deriving DecidableEq

/-- `run_query(query_statement, sql_connection)`: print the statement,
evaluate it with the SQL engine (`pd.read_sql`, abstracted as `ev`),
print the resulting table, and return Python `None` — the result is not
returned. -/
def run_query (ev : String → List (String × DataFrame) → Option DataFrame)
    (q : String) (db : List (String × DataFrame)) :
    Except Err (Option DataFrame × List PrintItem) :=
  match ev q db with
  | none => Except.error Err.query
  | some out => Except.ok (none, [PrintItem.text q, PrintItem.table out])

/-! ## The module-level script -/

/-- Results of the external effects of one run: the fetched document,
the exchange-rate file read as a currency-to-rate dict, whether each
write and the connection succeed, and the SQL engine. -/
structure Env where
  doc : Except Err HtmlDoc
  rates : Except Err (List (String × ℚ))
  csvWriteOk : Bool
  connectOk : Bool
  dbWriteOk : Bool
  evalSql : String → List (String × DataFrame) → Option DataFrame

/-- Observable state of one run: the audit log (in append order), the
CSV sink, the database tables, whether the sqlite handle is open, and
everything printed. -/
structure RunState where
  logMsgs : List String
  csvSink : Option DataFrame
  db : List (String × DataFrame)
  connOpen : Bool
  printed : List PrintItem
deriving DecidableEq

/-- `log_progress(message)`: append one line to the audit log. -/
def logP (s : RunState) (m : String) : RunState :=
  { s with logMsgs := s.logMsgs ++ [m] }

/-- State at the start of a run over a prior database `db0`. -/
def initState (db0 : List (String × DataFrame)) : RunState :=
  ⟨[], none, db0, false, []⟩

/-- The eight audit-log milestones of the script, in order. -/
def milestones : List String :=
  [ "Preliminaries Complete. Initiating ETL process"
  , "Data extraction complete. Initiating Transformation process"
  , "Data transformation complete. Initiating Loading process"
  , "Data saved to CSV file"
  , "SQL Connection initiated."
  , "Data loaded to Database as a table, Executing queries"
  , "Process Complete"
  , "Server Connection Closed" ]

/-- The three ad-hoc query statements of the script, in order. -/
def queryStatements : List String :=
  [ "SELECT * FROM Largest_banks"
  , "SELECT AVG(MC_GBP_Billion) FROM Largest_banks"
  , "SELECT Name from Largest_banks LIMIT 5" ]

/-- One `run_query` call inside the script: the statement is printed
even when `read_sql` then fails; on success the rendered table is
printed too. -/
def doQuery (ev : String → List (String × DataFrame) → Option DataFrame)
    (q : String) (s : RunState) : RunState × Option Err :=
  match run_query ev q s.db with
  | Except.error e => ({ s with printed := s.printed ++ [PrintItem.text q] }, some e)
  | Except.ok r => ({ s with printed := s.printed ++ r.2 }, none)

/-- The tail of the script after the database write: the three
`run_query` calls, the final log line, `sql_connection.close()`, and the
closing log line.  An exception in a query aborts the rest — in
particular the `close()` call is never reached then. -/
def queriesAndClose (ev : String → List (String × DataFrame) → Option DataFrame)
    (s5 : RunState) : RunState × Option Err :=
  match doQuery ev "SELECT * FROM Largest_banks" s5 with
  | (s6, some e) => (s6, some e)
  | (s6, none) =>
    match doQuery ev "SELECT AVG(MC_GBP_Billion) FROM Largest_banks" s6 with
    | (s7, some e) => (s7, some e)
    | (s7, none) =>
      match doQuery ev "SELECT Name from Largest_banks LIMIT 5" s7 with
      | (s8, some e) => (s8, some e)
      | (s8, none) =>
        let s9 := logP s8 "Process Complete"
        let s10 := logP { s9 with connOpen := false } "Server Connection Closed"
        (s10, none)

/-- The module-level script: log, extract, log, transform, log, write
CSV, log, connect, log, write DB, log, run the three queries, log, close
the connection, log.  Any exception aborts the remaining steps and is
returned alongside the state reached. -/
def runPipeline (env : Env) (db0 : List (String × DataFrame)) :
    RunState × Option Err :=
  let s0 := logP (initState db0) "Preliminaries Complete. Initiating ETL process"
  match env.doc with
  | Except.error e => (s0, some e)
  | Except.ok doc =>
    match extract doc with
    | Except.error e => (s0, some e)
    | Except.ok df =>
      let s1 := logP s0 "Data extraction complete. Initiating Transformation process"
      match transform df env.rates with
      | Except.error e => (s1, some e)
      | Except.ok tdf =>
        let s2 := logP s1 "Data transformation complete. Initiating Loading process"
        if env.csvWriteOk then
          let s3 := logP { s2 with csvSink := load_to_csv tdf s2.csvSink }
            "Data saved to CSV file"
          if env.connectOk then
            let s4 := logP { s3 with connOpen := true } "SQL Connection initiated."
            if env.dbWriteOk then
              let s5 := logP { s4 with db := load_to_db s4.db table_name tdf }
                "Data loaded to Database as a table, Executing queries"
              queriesAndClose env.evalSql s5
            else (s4, some Err.persistence)
          else (s3, some Err.connect)
        else (s2, some Err.persistence)

/-! ## Reference-cell model of `transform`'s in-place mutation -/

/-- A heap of DataFrame objects addressed by reference. -/
def Heap : Type := ℕ → Option DataFrame

/-- Overwrite the object a reference points to. -/
def updateHeap (h : Heap) (r : ℕ) (v : Option DataFrame) : Heap :=
  fun n => if n = r then v else h n

/-- `transform` at the object level: the parameter `df` is a reference;
the column assignments mutate the referenced object in place and
`return df` returns the same reference. -/
def transformRef (h : Heap) (r : ℕ) (ratesFile : Except Err (List (String × ℚ))) :
    Except Err (Heap × ℕ) :=
  match h r with
  | none => Except.error Err.nullRef
  | some df =>
    match transform df ratesFile with
    | Except.error e => Except.error e
    | Except.ok df2 => Except.ok (updateHeap h r (some df2), r)

/-! ## Concrete fixtures (scenarios from the specification) -/

/-- The scenario table of the spec, verbatim: raw rows
`("Bank A", "$100.00 ")` and `("Bank B", "50")`. -/
def scenarioDF : DataFrame :=
  ⟨table_attribs,
   [[CellValue.str "Bank A", CellValue.str "$100.00 "],
    [CellValue.str "Bank B", CellValue.str "50"]]⟩

/-- The scenario table with the dollar sign removed from Bank A's
market-cap text. -/
def scenarioDFPlain : DataFrame :=
  ⟨table_attribs,
   [[CellValue.str "Bank A", CellValue.str "100.00 "],
    [CellValue.str "Bank B", CellValue.str "50"]]⟩

/-- The scenario exchange rates `{GBP: 0.8, EUR: 0.93, INR: 83.0}`. -/
def scenarioRates : List (String × ℚ) :=
  [("GBP", 4 / 5), ("EUR", 93 / 100), ("INR", 83)]

/-- The enriched table the scenario expects. -/
def scenarioEnriched : DataFrame :=
  ⟨["Name", "MC_USD_Billion", "MC_GBP_Billion", "MC_EUR_Billion", "MC_INR_Billion"],
   [[CellValue.str "Bank A", CellValue.num 100, CellValue.num 80,
     CellValue.num 93, CellValue.num 8300],
    [CellValue.str "Bank B", CellValue.num 50, CellValue.num 40,
     CellValue.num (93 / 2), CellValue.num 4150]]⟩

/-! ## Helper lemmas -/

theorem mapO_some_fun (f : α → β) (l : List α) :
    mapO (fun x => some (f x)) l = some (l.map f) := by
  induction l with
  | nil => rfl
  | cons x xs ih => simp [mapO, ih]

theorem mapO_mem {f : α → Option β} :
    ∀ {l : List α} {l2 : List β}, mapO f l = some l2 →
      ∀ y ∈ l2, ∃ x ∈ l, f x = some y := by
  intro l
  induction l with
  | nil =>
    intro l2 h y hy
    simp [mapO] at h
    subst h
    simp at hy
  | cons x xs ih =>
    intro l2 h y hy
    unfold mapO at h
    rcases hfx : f x with _ | z <;> rw [hfx] at h
    · simp at h
    · rcases hrest : mapO f xs with _ | ys <;> rw [hrest] at h
      · simp at h
      · simp at h
        subst h
        rcases List.mem_cons.mp hy with h1 | h1
        · subst h1
          exact ⟨x, List.mem_cons_self x xs, hfx⟩
        · rcases ih hrest y h1 with ⟨w, hw1, hw2⟩
          exact ⟨w, List.mem_cons_of_mem x hw1, hw2⟩

theorem zipWith_append_maps (l : List α) (f : α → List CellValue) (g : α → CellValue) :
    List.zipWith (fun r v => r ++ [v]) (l.map f) (l.map g) =
      l.map (fun x => f x ++ [g x]) := by
  induction l with
  | nil => rfl
  | cons x xs ih => simp [ih]

/-- Under the column shape produced by `extract` and a rate table
containing all three codes, a successful `transform` appends exactly the
three derived columns, and each output row is the coerced input row
followed by the three rounded products. -/
theorem transform_shape (df : DataFrame) (rates : List (String × ℚ)) (df2 : DataFrame)
    (rG rE rI : ℚ)
    (hcols : df.cols = ["Name", "MC_USD_Billion"])
    (hG : List.lookup "GBP" rates = some rG)
    (hE : List.lookup "EUR" rates = some rE)
    (hI : List.lookup "INR" rates = some rI)
    (hok : transform df (Except.ok rates) = Except.ok df2) :
    df2.cols = ["Name", "MC_USD_Billion", "MC_GBP_Billion", "MC_EUR_Billion", "MC_INR_Billion"] ∧
    ∃ l, mapO (coerceRow 1) df.rows = some l ∧
      df2.rows = l.map (fun p =>
        p.1 ++ [CellValue.num (roundQ2 (p.2 * rG)),
                CellValue.num (roundQ2 (p.2 * rE)),
                CellValue.num (roundQ2 (p.2 * rI))]) := by
  have h1 : (["Name", "MC_USD_Billion"] : List String).findIdx?
      (fun c => c == "MC_USD_Billion") = some 1 := rfl
  unfold transform astypeUSD at hok
  rw [hcols, h1] at hok
  dsimp only at hok
  rcases hm : mapO (coerceRow 1) df.rows with _ | l
  · rw [hm] at hok; exact absurd hok (by simp)
  · rw [hm] at hok
    try dsimp only at hok
    unfold deriveCol at hok
    simp only [hG, hE, hI, Option.map_some', mapO_some_fun] at hok
    try dsimp only at hok
    have hset1 : ∀ rs vals, setColumn ⟨["Name", "MC_USD_Billion"], rs⟩ "MC_GBP_Billion" vals =
        ⟨["Name", "MC_USD_Billion", "MC_GBP_Billion"],
         List.zipWith (fun r v => r ++ [v]) rs vals⟩ := fun _ _ => rfl
    have hset2 : ∀ rs vals,
        setColumn ⟨["Name", "MC_USD_Billion", "MC_GBP_Billion"], rs⟩ "MC_EUR_Billion" vals =
        ⟨["Name", "MC_USD_Billion", "MC_GBP_Billion", "MC_EUR_Billion"],
         List.zipWith (fun r v => r ++ [v]) rs vals⟩ := fun _ _ => rfl
    have hset3 : ∀ rs vals,
        setColumn ⟨["Name", "MC_USD_Billion", "MC_GBP_Billion", "MC_EUR_Billion"], rs⟩
          "MC_INR_Billion" vals =
        ⟨["Name", "MC_USD_Billion", "MC_GBP_Billion", "MC_EUR_Billion", "MC_INR_Billion"],
         List.zipWith (fun r v => r ++ [v]) rs vals⟩ := fun _ _ => rfl
    rw [hset1, hset2, hset3] at hok
    simp only [List.map_map, zipWith_append_maps] at hok
    rcases hok2 : df2 with ⟨c2, r2⟩
    rw [hok2] at hok
    simp only [Except.ok.injEq, DataFrame.mk.injEq] at hok
    refine ⟨hok.1.symm, l, rfl, ?_⟩
    rw [← hok.2]
    simp [Function.comp, List.append_assoc]

/-- On a table with the extractor's column shape, any successful
`transform` (whatever the rate values) appends exactly the three derived
column names. -/
theorem transform_cols (df : DataFrame) (ratesFile : Except Err (List (String × ℚ)))
    (df2 : DataFrame)
    (hcols : df.cols = ["Name", "MC_USD_Billion"])
    (hok : transform df ratesFile = Except.ok df2) :
    df2.cols = ["Name", "MC_USD_Billion", "MC_GBP_Billion", "MC_EUR_Billion", "MC_INR_Billion"] := by
  have h1 : (["Name", "MC_USD_Billion"] : List String).findIdx?
      (fun c => c == "MC_USD_Billion") = some 1 := rfl
  unfold transform astypeUSD at hok
  rw [hcols, h1] at hok
  try dsimp only at hok
  rcases hm : mapO (coerceRow 1) df.rows with _ | l <;> rw [hm] at hok
  · simp at hok
  · try dsimp only at hok
    rcases ratesFile with e | rates
    · simp at hok
    · try dsimp only at hok
      rcases hg : deriveCol (List.map Prod.snd l) rates "GBP" with e | g <;> rw [hg] at hok
      · simp at hok
      · try dsimp only at hok
        have hset1 : ∀ rs vals,
            setColumn ⟨["Name", "MC_USD_Billion"], rs⟩ "MC_GBP_Billion" vals =
            ⟨["Name", "MC_USD_Billion", "MC_GBP_Billion"],
             List.zipWith (fun r v => r ++ [v]) rs vals⟩ := fun _ _ => rfl
        rw [hset1] at hok
        rcases he : deriveCol (List.map Prod.snd l) rates "EUR" with e | eu <;> rw [he] at hok
        · simp at hok
        · try dsimp only at hok
          have hset2 : ∀ rs vals,
              setColumn ⟨["Name", "MC_USD_Billion", "MC_GBP_Billion"], rs⟩
                "MC_EUR_Billion" vals =
              ⟨["Name", "MC_USD_Billion", "MC_GBP_Billion", "MC_EUR_Billion"],
               List.zipWith (fun r v => r ++ [v]) rs vals⟩ := fun _ _ => rfl
          rw [hset2] at hok
          rcases hi : deriveCol (List.map Prod.snd l) rates "INR" with e | inr <;> rw [hi] at hok
          · simp at hok
          · try dsimp only at hok
            have hset3 : ∀ rs vals,
                setColumn ⟨["Name", "MC_USD_Billion", "MC_GBP_Billion", "MC_EUR_Billion"], rs⟩
                  "MC_INR_Billion" vals =
                ⟨["Name", "MC_USD_Billion", "MC_GBP_Billion", "MC_EUR_Billion", "MC_INR_Billion"],
                 List.zipWith (fun r v => r ++ [v]) rs vals⟩ := fun _ _ => rfl
            rw [hset3] at hok
            have := congrArg DataFrame.cols (Except.ok.inj hok)
            exact this.symm

/-- After `load_to_db`, the named table holds exactly the new rows,
whatever was there before. -/
theorem lookup_load_to_db (db0 : List (String × DataFrame)) (n : String) (df : DataFrame) :
    List.lookup n (load_to_db db0 n df) = some df := by
  unfold load_to_db
  induction db0 with
  | nil => simp
  | cons p rest ih =>
    by_cases h : p.1 = n
    · simpa [List.filter_cons, h] using ih
    · have hb : (p.1 == n) = false := by simp [h]
      have hb2 : (n == p.1) = false := by simp [Ne.symm h]
      simpa [List.filter_cons, hb, List.lookup, hb2] using ih

/-- A query call touches only the printed output: log, CSV sink,
database and connection flag are unchanged. -/
theorem doQuery_frame (ev : String → List (String × DataFrame) → Option DataFrame)
    (q : String) (s : RunState) :
    (doQuery ev q s).1.logMsgs = s.logMsgs ∧ (doQuery ev q s).1.csvSink = s.csvSink ∧
    (doQuery ev q s).1.db = s.db ∧ (doQuery ev q s).1.connOpen = s.connOpen := by
  unfold doQuery run_query
  rcases ev q s.db with _ | out <;> simp

/-- Behaviour of the query-and-close tail: it never touches the CSV sink
or the database; on success the connection ends closed; on a query
failure the log and the connection flag are left as they were. -/
theorem queriesAndClose_spec (ev : String → List (String × DataFrame) → Option DataFrame)
    (s : RunState) :
    ((queriesAndClose ev s).1.csvSink = s.csvSink ∧ (queriesAndClose ev s).1.db = s.db) ∧
    ((queriesAndClose ev s).2 = none → (queriesAndClose ev s).1.connOpen = false) ∧
    ((queriesAndClose ev s).2.isSome = true →
      (queriesAndClose ev s).1.logMsgs = s.logMsgs ∧
      (queriesAndClose ev s).1.connOpen = s.connOpen) := by
  unfold queriesAndClose
  have f1 := doQuery_frame ev "SELECT * FROM Largest_banks" s
  rcases h1 : doQuery ev "SELECT * FROM Largest_banks" s with ⟨s6, _ | e⟩ <;>
    rw [h1] at f1 <;> (try dsimp only at f1) <;> try dsimp only
  · have f2 := doQuery_frame ev "SELECT AVG(MC_GBP_Billion) FROM Largest_banks" s6
    rcases h2 : doQuery ev "SELECT AVG(MC_GBP_Billion) FROM Largest_banks" s6 with ⟨s7, _ | e⟩ <;>
      rw [h2] at f2 <;> (try dsimp only at f2) <;> try dsimp only
    · have f3 := doQuery_frame ev "SELECT Name from Largest_banks LIMIT 5" s7
      rcases h3 : doQuery ev "SELECT Name from Largest_banks LIMIT 5" s7 with ⟨s8, _ | e⟩ <;>
        rw [h3] at f3 <;> (try dsimp only at f3) <;> try dsimp only
      · obtain ⟨f1a, f1b, f1c, f1d⟩ := f1
        obtain ⟨f2a, f2b, f2c, f2d⟩ := f2
        obtain ⟨f3a, f3b, f3c, f3d⟩ := f3
        simp [logP, f3b.trans (f2b.trans f1b), f3c.trans (f2c.trans f1c)]
      · obtain ⟨f1a, f1b, f1c, f1d⟩ := f1
        obtain ⟨f2a, f2b, f2c, f2d⟩ := f2
        obtain ⟨f3a, f3b, f3c, f3d⟩ := f3
        simp [f3b.trans (f2b.trans f1b), f3c.trans (f2c.trans f1c),
              f3a.trans (f2a.trans f1a), f3d.trans (f2d.trans f1d)]
    · obtain ⟨f1a, f1b, f1c, f1d⟩ := f1
      obtain ⟨f2a, f2b, f2c, f2d⟩ := f2
      simp [f2b.trans f1b, f2c.trans f1c, f2a.trans f1a, f2d.trans f1d]
  · obtain ⟨f1a, f1b, f1c, f1d⟩ := f1
    simp [f1a, f1b, f1c, f1d]

/-- Outcome of the tail of a run that reached the database write: on
success both sinks hold the transformed table; on a query failure the
log stops at the sixth milestone and both artifact milestones are
present. -/
theorem queriesAndClose_branch (ev : String → List (String × DataFrame) → Option DataFrame)
    (s : RunState) (db0 : List (String × DataFrame)) (t : DataFrame)
    (hcsv : s.csvSink = some t)
    (hdb : s.db = load_to_db db0 table_name t)
    (hlog : s.logMsgs = milestones.take 6) :
    ((queriesAndClose ev s).2 = none →
      (∃ t2, (queriesAndClose ev s).1.csvSink = some t2 ∧
        List.lookup table_name (queriesAndClose ev s).1.db = some t2) ∧
      (queriesAndClose ev s).1.connOpen = false) ∧
    ((queriesAndClose ev s).2.isSome = true →
      (∃ k, (queriesAndClose ev s).1.logMsgs = milestones.take k ∧ k < milestones.length) ∧
      ((queriesAndClose ev s).1.csvSink ≠ none →
        "Data saved to CSV file" ∈ (queriesAndClose ev s).1.logMsgs) ∧
      ((queriesAndClose ev s).1.db ≠ db0 →
        "Data loaded to Database as a table, Executing queries" ∈ (queriesAndClose ev s).1.logMsgs)) := by
  obtain ⟨⟨hc, hd⟩, hsucc, hfail⟩ := queriesAndClose_spec ev s
  constructor
  · intro h
    exact ⟨⟨t, by rw [hc, hcsv], by rw [hd, hdb]; exact lookup_load_to_db db0 table_name t⟩,
           hsucc h⟩
  · intro h
    obtain ⟨hlogs, -⟩ := hfail h
    refine ⟨⟨6, by rw [hlogs, hlog], by decide⟩, ?_, ?_⟩
    · intro hne
      rw [hlogs, hlog]
      decide
    · intro hne
      rw [hlogs, hlog]
      decide

/-- Outcome shape of a run that failed before the database write was
reached (or at it): the error pair `(s, some e)` satisfies both halves
of the pipeline invariant. -/
theorem failLeaf (s : RunState) (e : Err) (db0 : List (String × DataFrame)) (k : ℕ)
    (hk : k < milestones.length)
    (hlog : s.logMsgs = milestones.take k)
    (hcsv : s.csvSink = none ∨ "Data saved to CSV file" ∈ milestones.take k)
    (hdb : s.db = db0 ∨ "Data loaded to Database as a table, Executing queries" ∈ milestones.take k) :
    (((s, some e) : RunState × Option Err).2 = none →
      (∃ t2, ((s, some e) : RunState × Option Err).1.csvSink = some t2 ∧
        List.lookup table_name ((s, some e) : RunState × Option Err).1.db = some t2) ∧
      ((s, some e) : RunState × Option Err).1.connOpen = false) ∧
    (((s, some e) : RunState × Option Err).2.isSome = true →
      (∃ k2, ((s, some e) : RunState × Option Err).1.logMsgs = milestones.take k2 ∧
        k2 < milestones.length) ∧
      (((s, some e) : RunState × Option Err).1.csvSink ≠ none →
        "Data saved to CSV file" ∈ ((s, some e) : RunState × Option Err).1.logMsgs) ∧
      (((s, some e) : RunState × Option Err).1.db ≠ db0 →
        "Data loaded to Database as a table, Executing queries" ∈
          ((s, some e) : RunState × Option Err).1.logMsgs)) := by
  constructor
  · intro h
    exact absurd h (by simp)
  · intro _
    refine ⟨⟨k, hlog, hk⟩, ?_, ?_⟩
    · intro hne
      rcases hcsv with h | h
      · exact absurd h hne
      · rw [hlog]; exact h
    · intro hne
      rcases hdb with h | h
      · exact absurd h hne
      · rw [hlog]; exact h

/-- Invariants of every run: a successful run leaves the same table in
the CSV sink and in the database under the fixed table name, with the
connection closed; a failed run leaves the audit log a proper prefix of
the milestone list, and each artifact only exists when its milestone was
logged. -/
theorem runPipeline_invariants (env : Env) (db0 : List (String × DataFrame)) :
    ((runPipeline env db0).2 = none →
      (∃ t, (runPipeline env db0).1.csvSink = some t ∧
        List.lookup table_name (runPipeline env db0).1.db = some t) ∧
      (runPipeline env db0).1.connOpen = false) ∧
    ((runPipeline env db0).2.isSome = true →
      (∃ k, (runPipeline env db0).1.logMsgs = milestones.take k ∧ k < milestones.length) ∧
      ((runPipeline env db0).1.csvSink ≠ none →
        "Data saved to CSV file" ∈ (runPipeline env db0).1.logMsgs) ∧
      ((runPipeline env db0).1.db ≠ db0 →
        "Data loaded to Database as a table, Executing queries" ∈
          (runPipeline env db0).1.logMsgs)) := by
  unfold runPipeline
  rcases hdoc : env.doc with e | doc <;> try dsimp only
  · exact failLeaf _ e db0 1 (by decide) rfl (Or.inl rfl) (Or.inl rfl)
  · rcases hex : extract doc with e | df <;> try dsimp only
    · exact failLeaf _ e db0 1 (by decide) rfl (Or.inl rfl) (Or.inl rfl)
    · rcases htr : transform df env.rates with e | tdf <;> try dsimp only
      · exact failLeaf _ e db0 2 (by decide) rfl (Or.inl rfl) (Or.inl rfl)
      · rcases hcsvOk : env.csvWriteOk with _ | _ <;> try dsimp only
        · exact failLeaf _ Err.persistence db0 3 (by decide) rfl (Or.inl rfl) (Or.inl rfl)
        · rcases hconnOk : env.connectOk with _ | _ <;> try dsimp only
          · exact failLeaf _ Err.connect db0 4 (by decide) rfl (Or.inr (by decide)) (Or.inl rfl)
          · rcases hdbOk : env.dbWriteOk with _ | _ <;> try dsimp only
            · exact failLeaf _ Err.persistence db0 5 (by decide) rfl
                (Or.inr (by decide)) (Or.inl rfl)
            · exact queriesAndClose_branch env.evalSql _ db0 tdf rfl rfl rfl

/-- Over rows that are all valid, the extraction loop succeeds and
returns exactly one record per qualifying row, in source order. -/
theorem extractRows_valid (l : List HtmlRow) (hv : ∀ r ∈ l, validRow r = true) :
    extractRows l = Except.ok ((l.filter qualifies).map rowRecord) := by
  induction l with
  | nil => rfl
  | cons r rest ih =>
    have hvr := hv r (List.mem_cons_self r rest)
    have hrest : ∀ x ∈ rest, validRow x = true := fun x hx => hv x (List.mem_cons_of_mem r hx)
    by_cases hlen : r.cells.length ≤ 1
    · have hqf : qualifies r = false := by simp [qualifies]; omega
      have he : extractRow r = Except.ok none := by
        simp only [extractRow]
        rw [if_neg (by omega)]
      unfold extractRows
      rw [he, ih hrest]
      simp [List.filter_cons, hqf]
    · have h2 : 1 < r.cells.length := by omega
      simp only [validRow, Bool.or_eq_true, decide_eq_true_eq, Bool.and_eq_true] at hvr
      rcases hvr with h1 | ⟨⟨h3, hlink⟩, hparse⟩
      · omega
      · rcases hl : (r.cells.getD 1 default).links.get? 1 with _ | ot
        · rw [hl] at hlink; simp at hlink
        · rcases ot with _ | t
          · rw [hl] at hlink; simp at hlink
          · rcases hc2 : r.cells.get? 2 with _ | c2
            · rw [List.get?_eq_none] at hc2; omega
            · have hqt : qualifies r = true := by simp [qualifies]; omega
              have he : extractRow r = Except.ok (some (rowRecord r)) := by
                simp only [extractRow, rowRecord]
                rw [if_pos h2, hl, hc2]
                rfl
              unfold extractRows
              rw [he, ih hrest]
              simp [List.filter_cons, hqt]

/-! ## Claim theorems -/

/-- C1: every enriched record produced by the transform stage has its
`MC_GBP_Billion` equal to `MC_USD_Billion` times the GBP rate from the
exchange-rate table, rounded to two decimal places, and similarly for
EUR and INR; and the transform is deterministic — identical inputs
always yield identical enriched records. -/
theorem C1_transform_enrichment (df : DataFrame) (rates : List (String × ℚ))
    (df2 : DataFrame) (rG rE rI : ℚ)
    (hcols : df.cols = ["Name", "MC_USD_Billion"])
    (hlen : ∀ r ∈ df.rows, r.length = 2)
    (hG : List.lookup "GBP" rates = some rG)
    (hE : List.lookup "EUR" rates = some rE)
    (hI : List.lookup "INR" rates = some rI)
    (hok : transform df (Except.ok rates) = Except.ok df2) :
    (∀ row ∈ df2.rows, ∃ nm u, row =
      [nm, CellValue.num u,
       CellValue.num (roundQ2 (u * rG)),
       CellValue.num (roundQ2 (u * rE)),
       CellValue.num (roundQ2 (u * rI))]) ∧
    (∀ df' rates', df' = df → rates' = rates →
      transform df' (Except.ok rates') = transform df (Except.ok rates)) := by
  obtain ⟨-, l, hm, hrows⟩ := transform_shape df rates df2 rG rE rI hcols hG hE hI hok
  constructor
  · intro row hrow
    rw [hrows] at hrow
    rcases List.mem_map.mp hrow with ⟨p, hp, hpe⟩
    rcases mapO_mem hm p hp with ⟨r0, hr0, hcr⟩
    rcases List.length_eq_two.mp (hlen r0 hr0) with ⟨a, b, hab⟩
    subst hab
    unfold coerceRow at hcr
    replace hcr : (match coerceFloat b with
      | none => none
      | some q => some ([a, b].set 1 (CellValue.num q), q)) = some p := hcr
    rcases hq : coerceFloat b with _ | q <;> rw [hq] at hcr
    · simp at hcr
    · simp only [Option.some.injEq] at hcr
      refine ⟨a, q, ?_⟩
      rw [← hpe, ← hcr]
      rfl
  · intro df' rates' h1 h2
    rw [h1, h2]

/-- Witness for C1 at the scenario table (dollar sign removed) and the
scenario rates. -/
theorem C1_transform_enrichment_witness :
    (∀ row ∈ scenarioEnriched.rows, ∃ nm u, row =
      [nm, CellValue.num u,
       CellValue.num (roundQ2 (u * (4 / 5))),
       CellValue.num (roundQ2 (u * (93 / 100))),
       CellValue.num (roundQ2 (u * 83))]) ∧
    (∀ df' rates', df' = scenarioDFPlain → rates' = scenarioRates →
      transform df' (Except.ok rates') = transform scenarioDFPlain (Except.ok scenarioRates)) :=
  C1_transform_enrichment scenarioDFPlain scenarioRates scenarioEnriched
    (4 / 5) (93 / 100) 83 rfl (by decide) (by decide) (by decide) (by decide) (by decide)

/-- C2 (counterexample): on the spec's scenario table, whose Bank A
market-cap text is `"$100.00 "`, the transform stage does not succeed:
`astype(float)` raises a value-conversion error because Python `float`
cannot parse the dollar sign. -/
theorem C2_scenario_counterexample :
    transform scenarioDF (Except.ok scenarioRates) = Except.error Err.valueConversion := by
  decide

/-- C2 (amended): with the dollar sign removed from Bank A's market-cap
text (`"100.00 "` instead of `"$100.00 "`), the transform stage succeeds
and produces exactly the enriched records Bank A → (100.0, 80.0, 93.0,
8300.0) and Bank B → (50.0, 40.0, 46.5, 4150.0). -/
theorem C2_scenario_amended :
    transform scenarioDFPlain (Except.ok scenarioRates) = Except.ok scenarioEnriched := by
  decide

/-- C4: writing an enriched table to a database table whose name already
exists fully replaces the prior contents: for every prior database
state, the named table afterwards holds exactly the new record set —
nothing appended, nothing left over. -/
theorem C4_load_to_db_replaces (db0 : List (String × DataFrame)) (n : String)
    (df : DataFrame) :
    List.lookup n (load_to_db db0 n df) = some df :=
  lookup_load_to_db db0 n df

/-- C5: on a valid source document, the extractor processes every row
after the first (header) row of the first table body: rows with one or
fewer cells are excluded entirely, every other row yields exactly one
record, in source row order (hence exactly N records for N qualifying
rows), and each record has a non-empty name and a whitespace-stripped
market-cap string parseable as a positive decimal. -/
theorem C5_extract_valid_documents (doc : HtmlDoc) (body : List HtmlRow)
    (hb : doc.tbodies.get? 0 = some body)
    (hv : ∀ r ∈ body.drop 1, validRow r = true) :
    extract doc = Except.ok ⟨table_attribs, ((body.drop 1).filter qualifies).map rowRecord⟩ ∧
    (∀ r ∈ (body.drop 1).filter qualifies, ∃ nm mc,
      rowRecord r = [CellValue.str nm, CellValue.str mc] ∧ nm ≠ "" ∧
      ∃ q, pyFloat? mc = some q ∧ 0 < q) := by
  constructor
  · unfold extract
    rw [hb]
    try dsimp only
    rw [extractRows_valid _ hv]
  · intro r hr
    rcases List.mem_filter.mp hr with ⟨hmem, hq⟩
    have hvr := hv r hmem
    simp only [validRow, Bool.or_eq_true, decide_eq_true_eq, Bool.and_eq_true] at hvr
    have hgt : 1 < r.cells.length := by simpa [qualifies] using hq
    rcases hvr with h1 | ⟨⟨h3, hlink⟩, hparse⟩
    · omega
    · rcases hl : (r.cells.getD 1 default).links.get? 1 with _ | ot
      · rw [hl] at hlink; simp at hlink
      · rcases ot with _ | t
        · rw [hl] at hlink; simp at hlink
        · rw [hl] at hlink
          simp at hlink
          rcases hp : pyFloat? (pyStrip ((r.cells.get? 2).getD default).text) with _ | q
          · rw [hp] at hparse; simp at hparse
          · rw [hp] at hparse
            simp at hparse
            refine ⟨t, pyStrip ((r.cells.get? 2).getD default).text,
                    ?_, hlink, q, hp, hparse⟩
            simp only [rowRecord]
            rw [hl]
            rfl

/-- The first table body of the witness document: a header row, a data
row for Bank A, a one-cell footer row, and a data row for Bank B. -/
def bodyW : List HtmlRow :=
  [ ⟨[⟨[], "hdr"⟩]⟩,
    ⟨[⟨[], "1"⟩, ⟨[some "x", some "Bank A"], ""⟩, ⟨[], " 100.5 "⟩]⟩,
    ⟨[⟨[], "footer"⟩]⟩,
    ⟨[⟨[], "2"⟩, ⟨[none, some "Bank B"], ""⟩, ⟨[], "50"⟩]⟩ ]

/-- A concrete valid source document. -/
def docW : HtmlDoc := ⟨[bodyW]⟩

/-- Witness for C5 at the concrete document `docW`. -/
theorem C5_extract_valid_documents_witness :
    extract docW = Except.ok ⟨table_attribs, ((bodyW.drop 1).filter qualifies).map rowRecord⟩ ∧
    (∀ r ∈ (bodyW.drop 1).filter qualifies, ∃ nm mc,
      rowRecord r = [CellValue.str nm, CellValue.str mc] ∧ nm ≠ "" ∧
      ∃ q, pyFloat? mc = some q ∧ 0 < q) :=
  C5_extract_valid_documents docW bodyW rfl (by decide)

/-- A fixed result table used by the query-runner fixtures. -/
def dfOut : DataFrame := ⟨["Name"], [[CellValue.str "HSBC"]]⟩

/-- A SQL engine that answers every statement with `dfOut`. -/
def evConst : String → List (String × DataFrame) → Option DataFrame :=
  fun _ _ => some dfOut

/-- C9 (counterexample): `run_query` does not return the query's tabular
result to its caller: with an engine whose result table is `dfOut`, the
call returns Python `None` (while printing the statement and the
table), and `None` is not the tabular result. -/
theorem C9_run_query_counterexample :
    run_query evConst "SELECT * FROM Largest_banks" [] =
      Except.ok (none, [PrintItem.text "SELECT * FROM Largest_banks",
        PrintItem.table dfOut]) ∧
    evConst "SELECT * FROM Largest_banks" [] = some dfOut ∧
    (none : Option DataFrame) ≠ some dfOut :=
  ⟨rfl, rfl, by decide⟩

/-- C9 (amended): for every SQL string, engine and database state on
which the engine succeeds, `run_query` prints the statement and the
resulting table but returns `None`: the tabular result is not returned
to the caller. -/
theorem C9_run_query_prints_returns_none
    (ev : String → List (String × DataFrame) → Option DataFrame)
    (q : String) (db : List (String × DataFrame)) (out : DataFrame)
    (h : ev q db = some out) :
    run_query ev q db = Except.ok (none, [PrintItem.text q, PrintItem.table out]) := by
  unfold run_query
  rw [h]

/-- Witness for the amended C9 theorem at a concrete engine and query. -/
theorem C9_run_query_prints_returns_none_witness :
    run_query evConst "SELECT AVG(MC_GBP_Billion) FROM Largest_banks" [] =
      Except.ok (none, [PrintItem.text "SELECT AVG(MC_GBP_Billion) FROM Largest_banks",
        PrintItem.table dfOut]) :=
  C9_run_query_prints_returns_none evConst
    "SELECT AVG(MC_GBP_Billion) FROM Largest_banks" [] dfOut rfl

/-- C10: the transform stage mutates the table it is given in place and
returns the very same table object: at the object level, a successful
`transform` overwrites the heap cell behind the argument reference with
the enriched table, returns that same reference, and the caller's
pre-transform table (raw strings, no derived columns) no longer sits
behind it. -/
theorem C10_transform_in_place (h0 : Heap) (r : ℕ)
    (ratesFile : Except Err (List (String × ℚ))) (df df2 : DataFrame)
    (href : h0 r = some df)
    (hok : transform df ratesFile = Except.ok df2)
    (hcols : df.cols = ["Name", "MC_USD_Billion"]) :
    transformRef h0 r ratesFile = Except.ok (updateHeap h0 r (some df2), r) ∧
    updateHeap h0 r (some df2) r = some df2 ∧
    updateHeap h0 r (some df2) r ≠ some df := by
  have hc2 := transform_cols df ratesFile df2 hcols hok
  refine ⟨?_, ?_, ?_⟩
  · unfold transformRef
    rw [href]
    try dsimp only
    rw [hok]
  · simp [updateHeap]
  · have hval : updateHeap h0 r (some df2) r = some df2 := by simp [updateHeap]
    rw [hval]
    simp only [Ne, Option.some.injEq]
    intro hcontra
    rw [hcontra, hcols] at hc2
    exact absurd hc2 (by decide)

/-- Witness for C10 at a concrete heap holding the scenario table. -/
theorem C10_transform_in_place_witness :
    transformRef (fun n => if n = 0 then some scenarioDFPlain else none) 0
        (Except.ok scenarioRates) =
      Except.ok (updateHeap (fun n => if n = 0 then some scenarioDFPlain else none) 0
        (some scenarioEnriched), 0) ∧
    updateHeap (fun n => if n = 0 then some scenarioDFPlain else none) 0
        (some scenarioEnriched) 0 = some scenarioEnriched ∧
    updateHeap (fun n => if n = 0 then some scenarioDFPlain else none) 0
        (some scenarioEnriched) 0 ≠ some scenarioDFPlain :=
  C10_transform_in_place (fun n => if n = 0 then some scenarioDFPlain else none) 0
    (Except.ok scenarioRates) scenarioDFPlain scenarioEnriched rfl (by decide) rfl

/-! ## Pipeline fixtures and the pipeline claims -/

/-- The DataFrame `extract` produces on the witness document. -/
def dfW : DataFrame :=
  ⟨table_attribs,
   [[CellValue.str "Bank A", CellValue.str "100.5"],
    [CellValue.str "Bank B", CellValue.str "50"]]⟩

/-- `dfW` after the USD column has been coerced to float. -/
def dfWCoerced : DataFrame :=
  ⟨table_attribs,
   [[CellValue.str "Bank A", CellValue.num (201 / 2)],
    [CellValue.str "Bank B", CellValue.num 50]]⟩

/-- A complete exchange-rate table. -/
def ratesFull : List (String × ℚ) := [("GBP", 1), ("EUR", 1), ("INR", 1)]

/-- An exchange-rate table with no INR row. -/
def ratesNoINR : List (String × ℚ) := [("GBP", 1), ("EUR", 1)]

/-- An environment in which every external effect succeeds. -/
def envGood : Env :=
  ⟨Except.ok docW, Except.ok ratesFull, true, true, true, fun _ _ => some dfOut⟩

/-- An environment in which everything succeeds until the first ad-hoc
query, whose `read_sql` fails. -/
def envBadQuery : Env :=
  ⟨Except.ok docW, Except.ok ratesFull, true, true, true, fun _ _ => none⟩

/-- An environment whose exchange-rate file lacks the INR row. -/
def envNoINR : Env :=
  ⟨Except.ok docW, Except.ok ratesNoINR, true, true, true, fun _ _ => some dfOut⟩

/-- When the rate table has the currency, the derived-column
comprehension succeeds with the rounded products. -/
theorem deriveCol_found (usd : List ℚ) (rates : List (String × ℚ)) (c : String) (rc : ℚ)
    (hc : List.lookup c rates = some rc) :
    deriveCol usd rates c = Except.ok (usd.map (fun x => roundQ2 (x * rc))) := by
  unfold deriveCol
  simp [hc, Option.map_some', mapO_some_fun]

/-- When the rate table lacks the currency and the column is non-empty,
the comprehension raises the missing-rate error. -/
theorem deriveCol_missing (usd : List ℚ) (rates : List (String × ℚ)) (c : String)
    (hc : List.lookup c rates = none) (hne : usd ≠ []) :
    deriveCol usd rates c = Except.error (Err.missingRate c) := by
  rcases usd with _ | ⟨u, rest⟩
  · exact absurd rfl hne
  · unfold deriveCol mapO
    rw [hc]
    rfl

/-- C3: after a successful pipeline run, the CSV file and the database
table hold the very same enriched table — identical record set and
order, both sinks fed from the same in-memory table of the same run. -/
theorem C3_csv_and_db_identical (env : Env) (db0 : List (String × DataFrame))
    (h : (runPipeline env db0).2 = none) :
    ∃ t, (runPipeline env db0).1.csvSink = some t ∧
      List.lookup table_name (runPipeline env db0).1.db = some t :=
  ((runPipeline_invariants env db0).1 h).1

/-- Witness for C3 at a fully successful environment. -/
theorem C3_csv_and_db_identical_witness :
    ∃ t, (runPipeline envGood []).1.csvSink = some t ∧
      List.lookup table_name (runPipeline envGood []).1.db = some t :=
  C3_csv_and_db_identical envGood [] (by decide)

/-- C6: if the exchange-rate table lacks the INR row (GBP and EUR
present, at least one extracted record), the transform stage fails with
a missing-rate error and the run writes no output artifacts: the CSV
sink stays empty, the database keeps its prior state, and the log stops
after the extraction milestone. -/
theorem C6_missing_rate_no_artifacts (env : Env) (db0 : List (String × DataFrame))
    (doc : HtmlDoc) (df df1 : DataFrame) (usd : List ℚ)
    (rates : List (String × ℚ)) (rG rE : ℚ)
    (hdoc : env.doc = Except.ok doc)
    (hex : extract doc = Except.ok df)
    (hrates : env.rates = Except.ok rates)
    (hast : astypeUSD df = Except.ok (df1, usd))
    (husd : usd ≠ [])
    (hG : List.lookup "GBP" rates = some rG)
    (hE : List.lookup "EUR" rates = some rE)
    (hI : List.lookup "INR" rates = none) :
    runPipeline env db0 =
      (⟨["Preliminaries Complete. Initiating ETL process",
         "Data extraction complete. Initiating Transformation process"],
        none, db0, false, []⟩,
       some (Err.missingRate "INR")) := by
  have htr : transform df env.rates = Except.error (Err.missingRate "INR") := by
    rw [hrates]
    unfold transform
    rw [hast]
    try dsimp only
    rw [deriveCol_found usd rates "GBP" rG hG]
    try dsimp only
    rw [deriveCol_found usd rates "EUR" rE hE]
    try dsimp only
    rw [deriveCol_missing usd rates "INR" hI husd]
  unfold runPipeline
  rw [hdoc]
  try dsimp only
  rw [hex]
  try dsimp only
  rw [htr]
  try dsimp only
  simp [logP, initState]

/-- Witness for C6 at the concrete environment with no INR rate. -/
theorem C6_missing_rate_no_artifacts_witness :
    runPipeline envNoINR [] =
      (⟨["Preliminaries Complete. Initiating ETL process",
         "Data extraction complete. Initiating Transformation process"],
        none, [], false, []⟩,
       some (Err.missingRate "INR")) :=
  C6_missing_rate_no_artifacts envNoINR [] docW dfW dfWCoerced [201 / 2, 50]
    ratesNoINR 1 1 rfl (by decide) rfl (by decide) (by decide) (by decide)
    (by decide) (by decide)

/-- C7: in every run in which some stage fails, the error surfaces to
the caller as the run's result, the audit log is a proper prefix of the
milestone list — entries only up through the last successfully completed
stage, all later stages skipped — and no artifact was updated past the
failure: the CSV sink is non-empty only when its milestone was logged,
and the database differs from the prior state only when the load
milestone was logged. -/
theorem C7_failure_skips_remaining_stages (env : Env) (db0 : List (String × DataFrame))
    (h : (runPipeline env db0).2.isSome = true) :
    (∃ k, (runPipeline env db0).1.logMsgs = milestones.take k ∧ k < milestones.length) ∧
    ((runPipeline env db0).1.csvSink ≠ none →
      "Data saved to CSV file" ∈ (runPipeline env db0).1.logMsgs) ∧
    ((runPipeline env db0).1.db ≠ db0 →
      "Data loaded to Database as a table, Executing queries" ∈
        (runPipeline env db0).1.logMsgs) :=
  (runPipeline_invariants env db0).2 h

/-- Witness for C7 at the environment whose first query fails. -/
theorem C7_failure_skips_remaining_stages_witness :
    (∃ k, (runPipeline envBadQuery []).1.logMsgs = milestones.take k ∧
      k < milestones.length) ∧
    ((runPipeline envBadQuery []).1.csvSink ≠ none →
      "Data saved to CSV file" ∈ (runPipeline envBadQuery []).1.logMsgs) ∧
    ((runPipeline envBadQuery []).1.db ≠ [] →
      "Data loaded to Database as a table, Executing queries" ∈
        (runPipeline envBadQuery []).1.logMsgs) :=
  C7_failure_skips_remaining_stages envBadQuery [] (by decide)

/-- C8 (counterexample): a run in which the first ad-hoc query fails
terminates with the database connection still open — `close()` sits
after the queries with no `try`/`finally` around it, so the query-error
exit path never releases the handle. -/
theorem C8_query_failure_leaves_handle_open :
    (runPipeline envBadQuery []).2.isSome = true ∧
    (runPipeline envBadQuery []).1.connOpen = true := by
  decide

/-- C8 (amended): on the error-free exit path the connection is released
before the run ends; release is not guaranteed on failing exit paths
after acquisition (see the counterexample). -/
theorem C8_success_path_closes_handle (env : Env) (db0 : List (String × DataFrame))
    (h : (runPipeline env db0).2 = none) :
    (runPipeline env db0).1.connOpen = false :=
  ((runPipeline_invariants env db0).1 h).2

/-- Witness for the amended C8 theorem at a fully successful run. -/
theorem C8_success_path_closes_handle_witness :
    (runPipeline envGood []).1.connOpen = false :=
  C8_success_path_closes_handle envGood [] (by decide)

end ETLBanks
